import Mathlib

/-!
Verification of the shmCpp POSIX shared-memory library.

The repository is a header-only C++ library (`include/shmCpp.hpp` plus
earlier/later evolutionary variants of the same header).  The core is the
`_SharedMemory` / `_SharedMemoryObject` segment-lifecycle manager:
open → ftruncate → mmap → close → (use) → munmap → shm_unlink.

This file is a shallow embedding of that code.  Each member function is
translated into a pure Lean function; the OS calls it makes are given to it
as explicit results (an `Except Errno α` per call), and each function also
returns the list of OS-call events it issued and the diagnostic lines it
wrote to stderr.  C++ `throw` is modelled by returning `Except.error` with
the same exception type and message text the source builds.
-/

namespace shm

/-- POSIX errno values named by the sources, with their Linux numeric codes
(used where the C++ prints `std::to_string(errno)` in a default branch). -/
inductive Errno where
  | EACCES | EINVAL | EMFILE | ENFILE | ENAMETOOLONG
  | EFBIG | EPERM | EINTR | EBADF | ENODEV | ENOMEM | ENOENT | EEXIST | EAGAIN
  | other (code : Nat)
deriving DecidableEq

/-- Linux numeric value of each errno (from `errno.h`), used when the C++
source appends `std::to_string(errno)` to a message. -/
def Errno.code : Errno → Nat
  | .EPERM => 1
  | .ENOENT => 2
  | .EAGAIN => 11
  | .EINTR => 4
  | .EBADF => 9
  | .EACCES => 13
  | .EEXIST => 17
  | .ENODEV => 19
  | .ENOMEM => 12
  | .EINVAL => 22
  | .ENFILE => 23
  | .EMFILE => 24
  | .EFBIG => 27
  | .ENAMETOOLONG => 36
  | .other c => c

/-- Value of a C++ `void*` as used by the sources: the null pointer, the
`MAP_FAILED` sentinel (`(void*)-1`), or a real address returned by `mmap`. -/
inductive Ptr where
  | nullptr
  | mapFailed
  | addr (a : Nat)
deriving DecidableEq

/-- Exception types thrown by the sources: `shm::FileError`,
`shm::MemoryError` (both derived from `std::runtime_error`),
`std::invalid_argument` (zero size) and `std::out_of_range`
(`Array::at`), each carrying the message string the source builds. -/
inductive Err where
  | fileError (msg : String)
  | memoryError (msg : String)
  | invalidArgument (msg : String)
  | outOfRange (msg : String)
deriving DecidableEq

/-- `enum class Permissions` of the matured header variant (named
`Permission` in the intermediate variant; absent from `include/shmCpp.hpp`). -/
inductive Permissions where
  | ReadOnly
  | ReadWrite
deriving DecidableEq

/-- mmap protection flag `PROT_READ` (Linux value). -/
def PROT_READ : Nat := 1

/-- mmap protection flag `PROT_WRITE` (Linux value). -/
def PROT_WRITE : Nat := 2

/-- mmap protection flag `PROT_EXEC` (Linux value). -/
def PROT_EXEC : Nat := 4

/-- mmap flag `MAP_SHARED` (Linux value). -/
def MAP_SHARED : Nat := 1

/-- mmap flag `MAP_PRIVATE` (Linux value). -/
def MAP_PRIVATE : Nat := 2

/-- `NAME_MAX` from `limits.h` on Linux, used by `formatName`. -/
def NAME_MAX : Nat := 255

/-- One OS call issued by the library, as recorded in a trace. -/
inductive Event where
  | shmOpenEv (name : String)
  | ftruncateEv (fd : Int) (size : Nat)
  | mmapEv (prot : Nat) (flags : Nat) (size : Nat)
  | closeEv (fd : Int)
  | munmapEv
  | shmUnlinkEv (name : String)
deriving DecidableEq

/-- The fields of `_SharedMemory` (`include/shmCpp.hpp`) and of
`_SharedMemoryObject<Sz>` (the matured variant).  C++ names: `_data`,
`_size` (the template parameter `Sz` in the matured variant), `_name`,
`_perm` (matured variant only; for the `include/shmCpp.hpp` variant, which
has no permission field, constructors below fix it to `ReadWrite`), `fd`. -/
structure SM where
  data : Ptr
  size : Nat
  name : String
  perm : Permissions
  fd : Int
deriving DecidableEq

/-- `is_writable()`: `return this->_perm != Permissions::ReadOnly;`. -/
def is_writable (s : SM) : Bool := s.perm ≠ Permissions.ReadOnly

/-- Message built by `_SharedMemory::open` when `shm_open` fails. -/
def openMsg (name : String) (e : Errno) : String :=
  "Shared memory: could not open " ++ name ++
    match e with
    | .EACCES => ": permission denied"
    | .EINVAL => ": invalid name"
    | .EMFILE => ": too many files open"
    | .ENFILE => ": too many files open"
    | .ENAMETOOLONG => ": filename too long"
    | e => ": error code " ++ Nat.repr e.code

/-- Message built by `_SharedMemory::open` when `ftruncate` fails. -/
def truncMsg (name : String) (size : Nat) (e : Errno) : String :=
  "Shared memory: could not create shared memory object " ++ name ++
    " of size " ++ Nat.repr size ++ " bytes" ++
    match e with
    | .EFBIG => ": larger than maximum file size"
    | .EPERM => ": permission denied"
    | .EINTR => ": interrupted by signal"
    | .EBADF => ": internal error"
    | .EINVAL => ": internal error"
    | e => ": error code " ++ Nat.repr e.code

/-- Message built by `_SharedMemory::close` when `::close` fails. -/
def closeMsg (name : String) (fd : Int) (e : Errno) : String :=
  "Shared memory: error when closing file " ++ name ++
    " with descriptor " ++ toString fd ++
    match e with
    | .EBADF => ": internal error"
    | .EINTR => ": interrupted by signal"
    | e => " error code " ++ Nat.repr e.code

/-- Message built by `_SharedMemory::unlink` when `shm_unlink` fails with an
errno other than `ENOENT` (for which the source returns silently). -/
def unlinkMsg (name : String) (e : Errno) : String :=
  "Shared memory: error when unlinking shared memory " ++ name ++
    match e with
    | .EACCES => ": permission denied"
    | .EMFILE => ": file error"
    | .ENFILE => ": file error"
    | .ENAMETOOLONG => ": file error"
    | e => " error code " ++ Nat.repr e.code

/-- Message built by `_SharedMemory::map` (`include/shmCpp.hpp` variant,
whose `EINVAL` branch tests `_size > 0` at run time) when `mmap` fails. -/
def mapMsgHpp (name : String) (size : Nat) (e : Errno) : String :=
  "Shared memory: error mapping memory object " ++ name ++
    " of size " ++ Nat.repr size ++ " bytes" ++
    match e with
    | .EACCES => ": permissions/file error"
    | .EBADF => ": permissions/file error"
    | .EAGAIN => ": locking error"
    | .EINVAL => if size > 0 then ": too large" else ": cannot map zero bytes"
    | .ENODEV => ": filesystem does not support mamory mapping"
    | .ENOMEM => ": no memory available or too many mappings"
    | .EPERM => ": file sealed or execution denied"
    | e => " error code " ++ Nat.repr e.code

/-- Message built by `_SharedMemoryObject::map` (matured variant, where
size > 0 is a compile-time assertion so `EINVAL` is unconditionally
"too large") when `mmap` fails. -/
def mapMsgObj (name : String) (size : Nat) (e : Errno) : String :=
  "Shared memory: error mapping memory object " ++ name ++
    " of size " ++ Nat.repr size ++ " bytes" ++
    match e with
    | .EACCES => ": permissions/file error"
    | .EBADF => ": permissions/file error"
    | .EAGAIN => ": locking error"
    | .EINVAL => ": too large"
    | .ENODEV => ": filesystem does not support mamory mapping"
    | .ENOMEM => ": no memory available or too many mappings"
    | .EPERM => ": file sealed or execution denied"
    | e => " error code " ++ Nat.repr e.code

/-- Message built by `_SharedMemory::unmap` when `munmap` fails. -/
def unmapMsg (name : String) (e : Errno) : String :=
  "Shared memory: error unmapping object " ++ name ++
    match e with
    | .EINVAL => ": internal error"
    | e => " error code " ++ Nat.repr e.code

/-- Results the OS hands back for the calls a constructor makes, one per
call site: `shm_open` (yields a descriptor ≥ 0), `ftruncate`, `mmap`
(yields an address), `::close`. -/
structure Oracle where
  openRes : Except Errno Nat
  truncRes : Except Errno Unit
  mmapRes : Except Errno Nat
  closeRes : Except Errno Unit

/-- `_SharedMemory::open` (identical in `include/shmCpp.hpp` lines 200-262
and, as `_SharedMemoryObject::open`, in the matured variant): calls
`shm_open(_name, O_RDWR | O_CREAT, S_IRWXU | S_IRGRP)`, storing the result
in `fd`; throws `FileError` if it returned -1; then calls
`ftruncate(fd, _size)` and throws `FileError` if that failed.  Note that on
`ftruncate` failure it throws with `fd` still holding the open descriptor:
no `::close` happens before the throw. -/
def openStep (s : SM) (openRes : Except Errno Nat) (truncRes : Except Errno Unit) :
    Except Err SM × List Event :=
  match openRes with
  | .error e =>
      (.error (.fileError (openMsg s.name e)), [.shmOpenEv s.name])
  | .ok fd =>
      let s' : SM := { s with fd := (fd : Int) }
      match truncRes with
      | .error e =>
          (.error (.fileError (truncMsg s'.name s'.size e)),
           [.shmOpenEv s'.name, .ftruncateEv s'.fd s'.size])
      | .ok _ =>
          (.ok s', [.shmOpenEv s'.name, .ftruncateEv s'.fd s'.size])

/-- `_SharedMemory::map` of `include/shmCpp.hpp` (lines 327-369): requests
`prot = PROT_READ | PROT_WRITE | PROT_EXEC`, `flags = MAP_SHARED`, assigns
the `mmap` result to `_data`, and throws `MemoryError` if it is
`MAP_FAILED`. -/
def mapStepHpp (s : SM) (mmapRes : Except Errno Nat) :
    Except Err SM × List Event :=
  let prot := PROT_READ ||| PROT_WRITE ||| PROT_EXEC
  let flags := MAP_SHARED
  match mmapRes with
  | .error e =>
      (.error (.memoryError (mapMsgHpp s.name s.size e)),
       [.mmapEv prot flags s.size])
  | .ok a =>
      (.ok { s with data := .addr a }, [.mmapEv prot flags s.size])

/-- `_SharedMemoryObject::map` of the matured variant (and
`_SharedMemory<Sz>::map` of the intermediate one): `prot` starts as
`PROT_READ` and has `PROT_WRITE` or-ed in when `is_writable()`;
`flags` is `MAP_SHARED` when `is_writable()`, else `MAP_PRIVATE`; assigns
the `mmap` result to `_data` and throws `MemoryError` on `MAP_FAILED`. -/
def mapStepObj (s : SM) (mmapRes : Except Errno Nat) :
    Except Err SM × List Event :=
  let prot := if is_writable s then PROT_READ ||| PROT_WRITE else PROT_READ
  let flags := if is_writable s then MAP_SHARED else MAP_PRIVATE
  match mmapRes with
  | .error e =>
      (.error (.memoryError (mapMsgObj s.name s.size e)),
       [.mmapEv prot flags s.size])
  | .ok a =>
      (.ok { s with data := .addr a }, [.mmapEv prot flags s.size])

/-- `_SharedMemory::close` (identical in all variants): if `fd != -1`,
calls `::close(fd)` and on failure prints a diagnostic to stderr (never
throws); then sets `fd = -1` unconditionally. -/
def closeStep (s : SM) (closeRes : Except Errno Unit) :
    SM × List Event × List String :=
  if s.fd ≠ -1 then
    ({ s with fd := -1 }, [.closeEv s.fd],
     match closeRes with
     | .error e => [closeMsg s.name s.fd e ++ "\n"]
     | .ok _ => [])
  else
    ({ s with fd := -1 }, [], [])

/-- `_SharedMemory::unmap` (identical in all variants): if `_data` is
neither `nullptr` nor `MAP_FAILED`, calls `munmap(_data, _size)` and on
failure prints a diagnostic (never throws).  The source does NOT reset
`_data` afterwards: the state is returned unchanged. -/
def unmapStep (s : SM) (munmapRes : Except Errno Unit) :
    SM × List Event × List String :=
  if s.data ≠ Ptr.nullptr ∧ s.data ≠ Ptr.mapFailed then
    (s, [.munmapEv],
     match munmapRes with
     | .error e => [unmapMsg s.name e ++ "\n"]
     | .ok _ => [])
  else
    (s, [], [])

/-- `_SharedMemory::unlink` (identical in all variants): calls
`shm_unlink(_name)`; on failure with `ENOENT` it returns silently
("probably already unlinked by another destructor"); on any other failure
it prints a diagnostic to stderr.  It never throws — which is why this
embedding gives it no `Except`-valued result at all. -/
def unlinkStep (s : SM) (unlinkRes : Except Errno Unit) :
    List Event × List String :=
  ([.shmUnlinkEv s.name],
   match unlinkRes with
   | .ok _ => []
   | .error .ENOENT => []
   | .error e => [unlinkMsg s.name e ++ "\n"])

/-- `_SharedMemory::_SharedMemory(name, size)` of `include/shmCpp.hpp`
(lines 176-185): initialises `_data = nullptr`, `_size = size`,
`_name = name`, `fd = -1`; throws `std::invalid_argument` when
`!(_size > 0)` — before any OS call (the returned event list is then
empty); otherwise runs `open(); map(); close();` in that order.  This
variant has no permission field; the embedding fixes `perm = ReadWrite`
(its `map` requests a shared writable mapping unconditionally). -/
def construct (name : String) (size : Nat) (o : Oracle) :
    Except Err SM × List Event × List String :=
  let s0 : SM := { data := .nullptr, size := size, name := name,
                   perm := .ReadWrite, fd := -1 }
  if ¬ (size > 0) then
    (.error (.invalidArgument
      ("Cannot create shared memory array with size < 1: " ++ Nat.repr size)),
     [], [])
  else
    match openStep s0 o.openRes o.truncRes with
    | (.error e, evs) => (.error e, evs, [])
    | (.ok s1, evs1) =>
      match mapStepHpp s1 o.mmapRes with
      | (.error e, evs2) => (.error e, evs1 ++ evs2, [])
      | (.ok s2, evs2) =>
        let r := closeStep s2 o.closeRes
        (.ok r.1, evs1 ++ evs2 ++ r.2.1, r.2.2)

/-- `_SharedMemoryObject<Sz>::_SharedMemoryObject(name, perm)` of the
matured variant (its `Sz > 0` is a compile-time `static_assert`, so there
is no run-time size check): initialises `_data = nullptr`, `_name = name`,
`_perm = perm`, `fd = -1`, then runs `open(); map(); close();`. -/
def constructObj (Sz : Nat) (name : String) (perm : Permissions) (o : Oracle) :
    Except Err SM × List Event × List String :=
  let s0 : SM := { data := .nullptr, size := Sz, name := name,
                   perm := perm, fd := -1 }
  match openStep s0 o.openRes o.truncRes with
  | (.error e, evs) => (.error e, evs, [])
  | (.ok s1, evs1) =>
    match mapStepObj s1 o.mmapRes with
    | (.error e, evs2) => (.error e, evs1 ++ evs2, [])
    | (.ok s2, evs2) =>
      let r := closeStep s2 o.closeRes
      (.ok r.1, evs1 ++ evs2 ++ r.2.1, r.2.2)

/-- `_SharedMemory::~_SharedMemory` (identical in all variants):
`unmap(); unlink();` in that order, each swallowing its own failures. -/
def destruct (s : SM) (munmapRes unlinkRes : Except Errno Unit) :
    SM × List Event × List String :=
  let r1 := unmapStep s munmapRes
  let r2 := unlinkStep r1.1 unlinkRes
  (r1.1, r1.2.1 ++ r2.1, r1.2.2 ++ r2.2)

/-- `bool _SharedMemory::empty() const`: `return this->_data != nullptr;`
(identical in all three variants). -/
def emptyFn (s : SM) : Bool := s.data ≠ Ptr.nullptr

/-- `bool shm::exists(const std::string&)`: does
`shm_open(name, O_RDONLY, S_IRUSR)`; if it failed, the switch maps
`EINVAL`, `ENAMETOOLONG`, `ENOENT`, `EMFILE`, `ENFILE` and the default to
`false` and `EEXIST`, `EACCES` to `true`; if it succeeded, the result is
`true` and the descriptor is closed.  Identical in all variants. -/
def shmExists (name : String) (openRes : Except Errno Nat) :
    Bool × List Event :=
  match openRes with
  | .ok fd => (true, [.shmOpenEv name, .closeEv (fd : Int)])
  | .error e =>
      (match e with
       | .EINVAL => false
       | .ENAMETOOLONG => false
       | .ENOENT => false
       | .EMFILE => false
       | .ENFILE => false
       | .EEXIST => true
       | .EACCES => true
       | _ => false,
       [.shmOpenEv name])

/-- Index of the first `'/'` in a character list, mirroring
`std::string::find('/', start)` restricted to its scan of one suffix. -/
def findSlash : List Char → Option Nat
  | [] => none
  | c :: t => if c = '/' then some 0 else (findSlash t).map (· + 1)

/-- `s.find('/', 1)`: position of the first `'/'` at index ≥ 1 of `s`. -/
def findSlashFrom1 : List Char → Option Nat
  | [] => none
  | _ :: t => (findSlash t).map (· + 1)

/-- The `while (true)` loop of `formatName`: find a `'/'` at position ≥ 1
and erase it (one character), until none is found.  The C++ loop needs at
most one iteration per character of `s`, so running it with fuel
`s.length` (as `formatName` below does) is exact. -/
def eraseSlashes : Nat → List Char → List Char
  | 0, s => s
  | fuel + 1, s =>
    match findSlashFrom1 s with
    | none => s
    | some p => eraseSlashes fuel (s.eraseIdx p)

/-- `std::string shm::formatName(const std::string&)` (identical in all
variants): `s = '/' + n`; repeatedly erase the `'/'` found at position ≥ 1
until none remains; if `s.length() >= NAME_MAX`, erase everything from
index `NAME_MAX` on (keeping the first `NAME_MAX` characters). -/
def formatName (n : String) : String :=
  let s0 := '/' :: n.data
  let s := eraseSlashes s0.length s0
  if s.length ≥ NAME_MAX then String.mk (s.take NAME_MAX) else String.mk s

/-- Abstract state of the OS shared-memory namespace: the set of names
currently linked.  This models the POSIX environment (not repository
code): `shm_open(..., O_CREAT, ...)` links the name, `shm_unlink` removes
it and reports `ENOENT` when it is absent, and a read-only non-creating
`shm_open` reports `ENOENT` when the name is absent.  The fault-free
single-process case: calls succeed whenever POSIX says they can. -/
structure OSState where
  segs : Finset String

/-- OS semantics of `shm_open(name, O_RDWR | O_CREAT, ...)` in the
fault-free OS: links `name` (a no-op if already present) and returns a
fresh descriptor `fd` chosen by the model. -/
def osShmOpenCreate (os : OSState) (name : String) (fd : Nat) :
    OSState × Except Errno Nat :=
  ({ segs := insert name os.segs }, .ok fd)

/-- OS semantics of `shm_open(name, O_RDONLY, ...)` in the fault-free OS:
returns a descriptor if `name` is linked, else fails with `ENOENT`. -/
def osShmOpenRdonly (os : OSState) (name : String) (fd : Nat) :
    Except Errno Nat :=
  if name ∈ os.segs then .ok fd else .error .ENOENT

/-- OS semantics of `shm_unlink(name)`: removes the name if linked, else
fails with `ENOENT`. -/
def osShmUnlink (os : OSState) (name : String) :
    OSState × Except Errno Unit :=
  if name ∈ os.segs then ({ segs := os.segs.erase name }, .ok ())
  else (os, .error .ENOENT)

/-- `construct` run against the fault-free OS: the zero-size check fires
before the OS is touched (the source throws before `open()`); otherwise
the constructor's `shm_open` is answered by `osShmOpenCreate` and its
`ftruncate` / `mmap` / `::close` succeed. -/
def constructInOS (os : OSState) (name : String) (size : Nat)
    (fd a : Nat) : OSState × (Except Err SM × List Event × List String) :=
  if size > 0 then
    let r := osShmOpenCreate os name fd
    (r.1, construct name size
      { openRes := r.2, truncRes := .ok (), mmapRes := .ok a,
        closeRes := .ok () })
  else
    -- the oracle is never consulted: `construct` rejects size 0 first
    (os, construct name size
      { openRes := .error .ENOENT, truncRes := .ok (),
        mmapRes := .ok a, closeRes := .ok () })

/-- `destruct` (the destructor) run against the fault-free OS: `munmap`
succeeds and `shm_unlink` is answered by `osShmUnlink`. -/
def destructInOS (os : OSState) (s : SM) :
    OSState × (SM × List Event × List String) :=
  let r := osShmUnlink os s.name
  (r.1, destruct s (.ok ()) r.2)

/-- The matured variant's `shm::Array<Tp, Sz>`: it composes (does not
inherit) a `_SharedMemoryObject<sizeof(Tp) * Sz>` held in `_obj`. -/
structure ArrayView where
  obj : SM

/-- `Array::operator[]`: `get_typed()[n]`, i.e. element `n` of the mapped
data reinterpreted as `Tp*` — modelled as the pair (base pointer, index). -/
def subscriptA (a : ArrayView) (n : Nat) : Ptr × Nat := (a.obj.data, n)

/-- `Array<Tp, Sz>::at(n)` of the matured variant (C++ name `at`): throws
`std::out_of_range` with the source's message when `n >= Sz` (where `Sz`
is the element count template parameter), else returns `(*this)[n]`. -/
def at' (Sz : Nat) (a : ArrayView) (n : Nat) : Except Err (Ptr × Nat) :=
  if n ≥ Sz then
    .error (.outOfRange
      ("Shared memory: tried to access element " ++ Nat.repr n ++
       ", size = " ++ Nat.repr Sz))
  else
    .ok (subscriptA a n)

/-- POSIX visibility of stores through a mapping: a write performed
through a mapping reaches the underlying shared segment (and hence other
mappers) exactly when the mapping was requested `MAP_SHARED` with
`PROT_WRITE` set; a `MAP_PRIVATE` mapping redirects stores to a private
copy and a mapping without `PROT_WRITE` faults the writer.  This is the
environment semantics the spec appeals to, not repository code. -/
def writePropagates (prot flags : Nat) : Prop :=
  flags = MAP_SHARED ∧ prot &&& PROT_WRITE ≠ 0

instance (prot flags : Nat) : Decidable (writePropagates prot flags) := by
  unfold writePropagates
  infer_instance

/-- A sample handle state with ReadOnly permission, used by witnesses. -/
def roState : SM :=
  { data := Ptr.nullptr, size := 8, name := "/x", perm := .ReadOnly, fd := 3 }

/-- A sample handle state with ReadWrite permission, used by witnesses. -/
def rwState : SM :=
  { data := Ptr.nullptr, size := 8, name := "/x", perm := .ReadWrite, fd := 3 }

/-- A sample fully-constructed (mapped, descriptor closed) handle state. -/
def mappedState : SM :=
  { data := Ptr.addr 4096, size := 1, name := "/x", perm := .ReadWrite,
    fd := -1 }

/-- The states of the spec's segment-handle state machine:
`Uninitialized → Opened → Mapped → Closed(Mapped) → Unmapped → Unlinked`. -/
inductive LState where
  | Uninitialized | Opened | Mapped | ClosedMapped | Unmapped | Unlinked
deriving DecidableEq

/-- Snapshots of the handle's fields at each state of the machine, along
the happy path of `include/shmCpp.hpp`'s `_SharedMemory` (every OS call
succeeds; `shm_open` returns `fd`, `mmap` returns address `a`):
member initialisers, then `open`, `map`, `close` (the constructor), then
`unmap`, `unlink` (the destructor; `unlink` touches no handle field). -/
def lifecycle (name : String) (size fd a : Nat) : List (LState × SM) :=
  let s0 : SM := { data := .nullptr, size := size, name := name,
                   perm := .ReadWrite, fd := -1 }
  match openStep s0 (.ok fd) (.ok ()) with
  | (.error _, _) => []
  | (.ok s1, _) =>
    match mapStepHpp s1 (.ok a) with
    | (.error _, _) => []
    | (.ok s2, _) =>
      let s3 := (closeStep s2 (.ok ())).1
      let s4 := (unmapStep s3 (.ok ())).1
      [(.Uninitialized, s0), (.Opened, s1), (.Mapped, s2),
       (.ClosedMapped, s3), (.Unmapped, s4), (.Unlinked, s4)]

/-- A pointer value that is neither of the two sentinels (`nullptr`,
`MAP_FAILED`): an actual mapped address. -/
def nonSentinel (p : Ptr) : Prop := p ≠ Ptr.nullptr ∧ p ≠ Ptr.mapFailed

instance (p : Ptr) : Decidable (nonSentinel p) := by
  unfold nonSentinel
  infer_instance

/-- The happy-path lifecycle, written out: the six snapshots with their
field values. -/
theorem lifecycle_eq (name : String) (size fd a : Nat) :
    lifecycle name size fd a =
      [(.Uninitialized, { data := .nullptr, size := size, name := name,
                          perm := .ReadWrite, fd := -1 }),
       (.Opened, { data := .nullptr, size := size, name := name,
                   perm := .ReadWrite, fd := (fd : Int) }),
       (.Mapped, { data := .addr a, size := size, name := name,
                   perm := .ReadWrite, fd := (fd : Int) }),
       (.ClosedMapped, { data := .addr a, size := size, name := name,
                         perm := .ReadWrite, fd := -1 }),
       (.Unmapped, { data := .addr a, size := size, name := name,
                     perm := .ReadWrite, fd := -1 }),
       (.Unlinked, { data := .addr a, size := size, name := name,
                     perm := .ReadWrite, fd := -1 })] := by
  have hfd : ((fd : Nat) : Int) ≠ -1 := by omega
  simp [lifecycle, openStep, mapStepHpp, closeStep, unmapStep, hfd]

/-! Lemmas about the slash-erasing loop of `formatName`, leading to a
closed form: on `'/' :: t` the loop returns `'/'` followed by `t` with
every `'/'` removed. -/

/-- Is the character the separator `'/'`? -/
def isSlash (c : Char) : Bool := c = '/'

/-- Is the character kept by the slash-stripping loop (not a `'/'`)? -/
def keepChar (c : Char) : Bool := ! isSlash c

theorem isSlash_true {c : Char} (hc : c = '/') : isSlash c = true := by
  simp [isSlash, hc]

theorem isSlash_false {c : Char} (hc : ¬ c = '/') : isSlash c = false := by
  simp [isSlash, hc]

theorem keepChar_true {c : Char} (hc : ¬ c = '/') : keepChar c = true := by
  simp [keepChar, isSlash, hc]

theorem keepChar_false {c : Char} (hc : c = '/') : keepChar c = false := by
  simp [keepChar, isSlash, hc]

theorem findSlash_none_filter (t : List Char) (h : findSlash t = none) :
    t.filter keepChar = t := by
  induction t with
  | nil => rfl
  | cons c cs ih =>
    by_cases hc : c = '/'
    · simp [findSlash, hc] at h
    · simp only [findSlash, if_neg hc, Option.map_eq_none'] at h
      simp only [List.filter_cons, keepChar_true hc, if_true, ih h]

theorem findSlash_some_filter (t : List Char) :
    ∀ i, findSlash t = some i →
      (t.eraseIdx i).filter keepChar = t.filter keepChar := by
  induction t with
  | nil => intro i h; simp [findSlash] at h
  | cons c cs ih =>
    intro i h
    by_cases hc : c = '/'
    · simp only [findSlash, if_pos hc] at h
      cases h
      simp [List.eraseIdx, List.filter_cons, keepChar_false hc]
    · simp only [findSlash, if_neg hc, Option.map_eq_some'] at h
      obtain ⟨j, hj, rfl⟩ := h
      simp [List.eraseIdx, List.filter_cons, keepChar_true hc, ih j hj]

theorem findSlash_some_count (t : List Char) :
    ∀ i, findSlash t = some i →
      ((t.eraseIdx i).filter isSlash).length + 1 =
        (t.filter isSlash).length := by
  induction t with
  | nil => intro i h; simp [findSlash] at h
  | cons c cs ih =>
    intro i h
    by_cases hc : c = '/'
    · simp only [findSlash, if_pos hc] at h
      cases h
      simp [List.eraseIdx, List.filter_cons, isSlash_true hc]
    · simp only [findSlash, if_neg hc, Option.map_eq_some'] at h
      obtain ⟨j, hj, rfl⟩ := h
      simp [List.eraseIdx, List.filter_cons, isSlash_false hc, ih j hj]

theorem filter_isSlash_nil_findSlash_none (t : List Char)
    (h : t.filter isSlash = []) : findSlash t = none := by
  induction t with
  | nil => rfl
  | cons c cs ih =>
    by_cases hc : c = '/'
    · simp [List.filter_cons, isSlash_true hc] at h
    · simp only [List.filter_cons, isSlash_false hc] at h
      simp only [findSlash, if_neg hc]
      rw [ih (by simpa using h)]
      rfl

theorem eraseSlashes_loop (fuel : Nat) :
    ∀ t : List Char, (t.filter isSlash).length ≤ fuel →
      eraseSlashes fuel ('/' :: t) = '/' :: t.filter keepChar := by
  induction fuel with
  | zero =>
    intro t h
    have hz : t.filter isSlash = [] :=
      List.length_eq_zero.mp (Nat.le_zero.mp h)
    have hnone := filter_isSlash_nil_findSlash_none t hz
    have h0 : eraseSlashes 0 ('/' :: t) = '/' :: t := rfl
    rw [h0, findSlash_none_filter t hnone]
  | succ fuel ih =>
    intro t h
    by_cases hf : findSlash t = none
    · have hstep : findSlashFrom1 ('/' :: t) = none := by
        simp [findSlashFrom1, hf]
      have : eraseSlashes (fuel + 1) ('/' :: t) = '/' :: t := by
        simp [eraseSlashes, hstep]
      rw [this, findSlash_none_filter t hf]
    · obtain ⟨j, hj⟩ := Option.ne_none_iff_exists'.mp hf
      have hstep : findSlashFrom1 ('/' :: t) = some (j + 1) := by
        simp [findSlashFrom1, hj]
      have herase : ('/' :: t).eraseIdx (j + 1) = '/' :: t.eraseIdx j := rfl
      have hcount := findSlash_some_count t j hj
      have hle : ((t.eraseIdx j).filter isSlash).length ≤ fuel := by omega
      calc eraseSlashes (fuel + 1) ('/' :: t)
          = eraseSlashes fuel ('/' :: t.eraseIdx j) := by
            simp [eraseSlashes, hstep, herase]
        _ = '/' :: (t.eraseIdx j).filter keepChar := ih _ hle
        _ = '/' :: t.filter keepChar := by
            rw [findSlash_some_filter t j hj]

theorem formatName_closed (n : String) :
    formatName n =
      (if ('/' :: n.data.filter keepChar).length ≥ NAME_MAX
       then String.mk (('/' :: n.data.filter keepChar).take NAME_MAX)
       else String.mk ('/' :: n.data.filter keepChar)) := by
  have hfuel : (n.data.filter isSlash).length ≤ ('/' :: n.data).length := by
    have := List.length_filter_le isSlash n.data
    simp only [List.length_cons]
    omega
  simp only [formatName]
  rw [eraseSlashes_loop _ _ hfuel]

/-- C7: constructing a shared-memory handle with requested size 0 always
fails with `std::invalid_argument` (the spec's InvalidArgument), carrying
the source's message, and the rejection happens before any OS call is
made: the OS-event trace of the attempt is empty, whatever the OS oracle
would have answered. -/
theorem C7_zero_size_rejected_before_os (name : String) (o : Oracle) :
    (construct name 0 o).1 = .error (.invalidArgument
      ("Cannot create shared memory array with size < 1: " ++ Nat.repr 0)) ∧
    (construct name 0 o).2.1 = [] := by
  exact ⟨rfl, rfl⟩

/-- C10: `empty()` returns exactly `_data != nullptr` — `true` precisely
when a mapping pointer is installed (so it reports that the memory IS
mapped, not that the handle is empty); in particular it returns `true`
for every successfully constructed handle, and `false` exactly when no
mapping pointer is installed. -/
theorem C10_empty_reports_mapped :
    (∀ s : SM, emptyFn s = true ↔ s.data ≠ Ptr.nullptr) ∧
    (∀ s : SM, emptyFn s = false ↔ s.data = Ptr.nullptr) ∧
    (∀ (name : String) (size : Nat) (o : Oracle) (s : SM),
      (construct name size o).1 = .ok s → emptyFn s = true) := by
  refine ⟨fun s => by simp [emptyFn], fun s => by simp [emptyFn], ?_⟩
  intro name size o s h
  by_cases hsz : size > 0
  · rcases o with ⟨orr, trr, mmr, clr⟩
    cases orr with
    | error e => simp [construct, hsz, openStep] at h
    | ok fd =>
      cases trr with
      | error e => simp [construct, hsz, openStep] at h
      | ok u =>
        cases mmr with
        | error e => simp [construct, hsz, openStep, mapStepHpp] at h
        | ok a =>
          simp only [construct, if_neg (by omega : ¬ ¬ size > 0),
            openStep, mapStepHpp, closeStep] at h
          split at h <;> (injection h with h2; subst h2; simp [emptyFn])
  · exfalso
    simp only [construct] at h
    rw [if_pos hsz] at h
    exact Except.noConfusion h

/-- Witness for C10 at a concrete successful construction. -/
theorem C10_empty_reports_mapped_witness :
    emptyFn mappedState = true :=
  C10_empty_reports_mapped.2.2 "/x" 1
    { openRes := .ok 3, truncRes := .ok (), mmapRes := .ok 4096,
      closeRes := .ok () }
    mappedState rfl

/-- C3: for an `Array` of element count `Sz`, `at(n)` raises the bounds
error (`std::out_of_range`, the spec's IndexError, with the source's
"tried to access element n, size = Sz" message) exactly when `n ≥ Sz`,
and for `n < Sz` it returns element `n` of the mapping (the result of
`operator[]`) without raising. -/
theorem C3_array_at_bounds :
    ∀ (Sz : Nat) (a : ArrayView) (n : Nat),
      ((∃ msg, at' Sz a n = .error (.outOfRange msg)) ↔ Sz ≤ n) ∧
      (n < Sz → at' Sz a n = .ok (a.obj.data, n)) := by
  intro Sz a n
  constructor
  · constructor
    · rintro ⟨msg, h⟩
      by_contra hn
      simp only [at'] at h
      rw [if_neg (by omega : ¬ n ≥ Sz)] at h
      exact Except.noConfusion h
    · intro h
      refine ⟨"Shared memory: tried to access element " ++ Nat.repr n ++
        ", size = " ++ Nat.repr Sz, ?_⟩
      simp only [at']
      rw [if_pos (by omega : n ≥ Sz)]
  · intro h
    simp only [at', subscriptA]
    rw [if_neg (by omega : ¬ n ≥ Sz)]

/-- Witness for C3 at `Sz = 8`, `n = 3`. -/
theorem C3_array_at_bounds_witness :
    at' 8 { obj := mappedState } 3 = .ok (Ptr.addr 4096, 3) :=
  (C3_array_at_bounds 8 { obj := mappedState } 3).2 (by decide)

/-- C2: the matured `map` step requests, for a ReadOnly handle, a
`PROT_READ`-only `MAP_PRIVATE` mapping (write-forbidden and not shared,
so by the POSIX semantics `writePropagates` a write through it is never
observed by other mappers of the segment), and for a ReadWrite handle a
write-capable `MAP_SHARED` mapping. -/
theorem C2_map_permissions :
    ∀ (s : SM) (r : Except Errno Nat),
      (s.perm = .ReadOnly →
        (mapStepObj s r).2 = [.mmapEv PROT_READ MAP_PRIVATE s.size] ∧
        ¬ writePropagates PROT_READ MAP_PRIVATE) ∧
      (s.perm = .ReadWrite →
        (mapStepObj s r).2 =
          [.mmapEv (PROT_READ ||| PROT_WRITE) MAP_SHARED s.size] ∧
        writePropagates (PROT_READ ||| PROT_WRITE) MAP_SHARED) := by
  intro s r
  constructor
  · intro hp
    have hw : is_writable s = false := by simp [is_writable, hp]
    exact ⟨by cases r <;> simp [mapStepObj, hw], by decide⟩
  · intro hp
    have hw : is_writable s = true := by simp [is_writable, hp]
    exact ⟨by cases r <;> simp [mapStepObj, hw], by decide⟩

/-- Witness for C2 at concrete ReadOnly and ReadWrite handles. -/
theorem C2_map_permissions_witness :
    ((mapStepObj roState (.ok 4096)).2 =
      [.mmapEv PROT_READ MAP_PRIVATE 8] ∧
     ¬ writePropagates PROT_READ MAP_PRIVATE) ∧
    ((mapStepObj rwState (.ok 4096)).2 =
      [.mmapEv (PROT_READ ||| PROT_WRITE) MAP_SHARED 8] ∧
     writePropagates (PROT_READ ||| PROT_WRITE) MAP_SHARED) :=
  ⟨(C2_map_permissions roState (.ok 4096)).1 rfl,
   (C2_map_permissions rwState (.ok 4096)).2 rfl⟩

/-- C8: during destruction, an unlink failure meaning "does not exist"
(`ENOENT`) is silent success — no diagnostic line; any other unlink
failure produces exactly one diagnostic line on stderr (and, since
`unlinkStep` is not `Except`-valued, is never thrown); and for two
handles of the same name whose destructors run in sequence against the
OS (in either order — the handles are interchangeable), the second
handle's unlink observes "does not exist" and reports nothing. -/
theorem C8_unlink_enoent_silent :
    (∀ s : SM, unlinkStep s (.error .ENOENT) = ([.shmUnlinkEv s.name], [])) ∧
    (∀ (s : SM) (e : Errno), e ≠ .ENOENT →
      (unlinkStep s (.error e)).2 = [unlinkMsg s.name e ++ "\n"]) ∧
    (∀ (os : OSState) (s1 s2 : SM), s2.name = s1.name →
      (unlinkStep s2 (osShmUnlink (osShmUnlink os s1.name).1 s2.name).2).2 =
        []) := by
  refine ⟨fun s => rfl, ?_, ?_⟩
  · intro s e he
    cases e <;> simp_all [unlinkStep]
  · intro os s1 s2 hname
    rw [hname]
    have hnot : s1.name ∉ (osShmUnlink os s1.name).1.segs := by
      by_cases h : s1.name ∈ os.segs <;>
        simp [osShmUnlink, h, Finset.not_mem_erase]
    have h2 : (osShmUnlink (osShmUnlink os s1.name).1 s1.name).2 =
        .error .ENOENT := by
      generalize (osShmUnlink os s1.name).1 = os1 at hnot
      simp [osShmUnlink, hnot]
    rw [h2]
    rfl

/-- Witness for C8: a concrete non-`ENOENT` failure is reported, and the
second of two same-name destructions is silent. -/
theorem C8_unlink_enoent_silent_witness :
    (unlinkStep rwState (.error .EACCES)).2 =
      [unlinkMsg "/x" .EACCES ++ "\n"] ∧
    (unlinkStep rwState
      (osShmUnlink (osShmUnlink { segs := {"/x"} } "/x").1 "/x").2).2 = [] :=
  ⟨C8_unlink_enoent_silent.2.1 rwState .EACCES (by decide),
   C8_unlink_enoent_silent.2.2 { segs := {"/x"} } rwState rwState rfl⟩

/-- C6 counterexample: the claim says `exists` returns `true` iff the
read-only open succeeded or failed with access-denied, but the source's
switch also maps `EEXIST` to `true`: at the input where the open fails
with `EEXIST`, the function returns `true` while the claimed condition
fails. -/
theorem C6_exists_eexist_counterexample :
    (shmExists "/x" (.error .EEXIST)).1 = true ∧
    ¬ ((∃ fd : Nat, (Except.error .EEXIST : Except Errno Nat) = .ok fd) ∨
       (Except.error .EEXIST : Except Errno Nat) = .error .EACCES) := by
  refine ⟨rfl, ?_⟩
  rintro (⟨fd, h⟩ | h) <;> exact absurd h (by simp)

/-- C6 as amended: `exists(name)` returns `true` iff the read-only
non-creating open succeeds or fails with access-denied or with the
(unreachable for an `O_CREAT`-less open, but handled) already-exists
code; it returns `false` for does-not-exist, invalid-name, name-too-long,
too-many-open-files and every other failure; and when the open succeeds
it closes the descriptor it opened before returning. -/
theorem C6_exists_amended :
    ∀ (name : String) (r : Except Errno Nat),
      ((shmExists name r).1 = true ↔
        (∃ fd, r = .ok fd) ∨ r = .error .EACCES ∨ r = .error .EEXIST) ∧
      (∀ fd, r = .ok fd →
        Event.closeEv (fd : Int) ∈ (shmExists name r).2) := by
  intro name r
  constructor
  · cases r with
    | ok fd => simp [shmExists]
    | error e => cases e <;> simp [shmExists]
  · rintro fd rfl
    simp [shmExists]

/-- Witness for C6's amended theorem at a successful open. -/
theorem C6_exists_amended_witness :
    (shmExists "/x" (.ok 3)).1 = true ∧
    Event.closeEv 3 ∈ (shmExists "/x" (.ok 3)).2 :=
  ⟨(C6_exists_amended "/x" (.ok 3)).1.mpr (Or.inl ⟨3, rfl⟩),
   (C6_exists_amended "/x" (.ok 3)).2 3 rfl⟩

theorem slash_not_mem_keep (n : String) : '/' ∉ n.data.filter keepChar := by
  intro h
  have := (List.mem_filter.mp h).2
  simp [keepChar, isSlash] at this

/-- C5: `formatName` is a total pure function whose result begins with
exactly one leading `'/'` (head is `'/'` and no `'/'` occurs in the
tail — interior separators are removed, not replaced), has length at most
`NAME_MAX`, reaches exactly `NAME_MAX` whenever the stripped name is at
least that long, and maps `"foo"` to `"/foo"`, `"/a/b/c"` to `"/abc"`,
and the degenerate empty and all-separator inputs to `"/"`. -/
theorem C5_formatName_spec :
    ∀ n : String,
      ((formatName n).data.head? = some '/' ∧
       '/' ∉ (formatName n).data.tail ∧
       (formatName n).length ≤ NAME_MAX ∧
       (NAME_MAX ≤ 1 + (n.data.filter keepChar).length →
         (formatName n).length = NAME_MAX)) ∧
      (formatName "foo" = "/foo" ∧ formatName "/a/b/c" = "/abc" ∧
       formatName "" = "/" ∧ formatName "///" = "/") := by
  intro n
  refine ⟨?_, by decide, by decide, by decide, by decide⟩
  rw [formatName_closed n]
  set L := n.data.filter keepChar with hL
  by_cases hlen : ('/' :: L).length ≥ NAME_MAX
  · rw [if_pos hlen]
    have h255 : NAME_MAX = 254 + 1 := rfl
    refine ⟨?_, ?_, ?_, ?_⟩
    · show (('/' :: L).take NAME_MAX).head? = some '/'
      rw [h255, List.take_succ_cons]
      rfl
    · show '/' ∉ (('/' :: L).take NAME_MAX).tail
      rw [h255, List.take_succ_cons]
      intro hmem
      exact slash_not_mem_keep n (List.take_subset _ _ hmem)
    · show (('/' :: L).take NAME_MAX).length ≤ NAME_MAX
      rw [List.length_take]
      exact Nat.min_le_left _ _
    · intro hp
      show (('/' :: L).take NAME_MAX).length = NAME_MAX
      rw [List.length_take]
      exact Nat.min_eq_left hlen
  · rw [if_neg hlen]
    have hlt : ('/' :: L).length < NAME_MAX := Nat.not_le.mp hlen
    have hc : ('/' :: L).length = L.length + 1 := by simp
    refine ⟨rfl, ?_, ?_, ?_⟩
    · show '/' ∉ ('/' :: L).tail
      exact slash_not_mem_keep n
    · show ('/' :: L).length ≤ NAME_MAX
      omega
    · intro hp
      exfalso
      omega

set_option maxRecDepth 8000 in
/-- Witness for C5: a 300-character slash-free name is truncated to
exactly `NAME_MAX` characters. -/
theorem C5_formatName_spec_witness :
    NAME_MAX ≤
      1 + ((String.mk (List.replicate 300 'a')).data.filter keepChar).length ∧
    (formatName (String.mk (List.replicate 300 'a'))).length = NAME_MAX :=
  ⟨by decide,
   ((C5_formatName_spec (String.mk (List.replicate 300 'a'))).1).2.2.2
     (by decide)⟩

/-- C4: in the fault-free OS model, for every `size > 0` and every name,
constructing a handle and immediately destroying it leaves no segment of
that name: the destructor's `shm_unlink` removes the name, so the
existence probe run afterwards sees `ENOENT` and returns `false`. -/
theorem C4_construct_destroy_no_segment :
    ∀ (os : OSState) (name : String) (size fd a fd2 : Nat),
      0 < size →
      ∀ s : SM, (constructInOS os name size fd a).2.1 = .ok s →
        (shmExists name
          (osShmOpenRdonly
            (destructInOS (constructInOS os name size fd a).1 s).1
            name fd2)).1 = false := by
  intro os name size fd a fd2 hsz s h
  have hos1 : (constructInOS os name size fd a).1 =
      { segs := insert name os.segs } := by
    simp [constructInOS, hsz, osShmOpenCreate]
  have hs : s = { data := .addr a, size := size, name := name,
                  perm := .ReadWrite, fd := -1 } := by
    simp only [constructInOS, if_pos hsz, osShmOpenCreate, construct,
      if_neg (by omega : ¬ ¬ size > 0), openStep, mapStepHpp,
      closeStep] at h
    split at h <;> (injection h with h2; exact h2.symm)
  subst hs
  rw [hos1]
  have hmem : name ∈ insert name os.segs := Finset.mem_insert_self _ _
  have hdes : (destructInOS { segs := insert name os.segs }
      { data := .addr a, size := size, name := name,
        perm := .ReadWrite, fd := -1 }).1 =
      { segs := (insert name os.segs).erase name } := by
    simp [destructInOS, osShmUnlink, hmem]
  rw [hdes]
  have hnot : name ∉ (insert name os.segs).erase name :=
    Finset.not_mem_erase _ _
  have hrd : osShmOpenRdonly { segs := (insert name os.segs).erase name }
      name fd2 = .error .ENOENT := by
    simp [osShmOpenRdonly, hnot]
  rw [hrd]
  rfl

/-- Witness for C4 at a concrete fresh OS and name. -/
theorem C4_construct_destroy_no_segment_witness :
    (shmExists "/seg"
      (osShmOpenRdonly
        (destructInOS (constructInOS { segs := ∅ } "/seg" 4 3 4096).1
          { data := .addr 4096, size := 4, name := "/seg",
            perm := .ReadWrite, fd := -1 }).1
        "/seg" 5)).1 = false :=
  C4_construct_destroy_no_segment { segs := ∅ } "/seg" 4 3 4096 5
    (by decide)
    { data := .addr 4096, size := 4, name := "/seg",
      perm := .ReadWrite, fd := -1 }
    rfl

/-- C9 counterexample: along the happy-path lifecycle the snapshot in
state `Unmapped` still carries the mapped address in `_data` (the
source's `unmap` never resets the pointer), so "mapping pointer
non-sentinel iff state is Mapped or Closed-but-mapped" is false there. -/
theorem C9_invariant_counterexample :
    ((LState.Unmapped,
      ({ data := .addr 4096, size := 1, name := "/x", perm := .ReadWrite,
         fd := -1 } : SM)) ∈ lifecycle "/x" 1 3 4096) ∧
    ¬ (nonSentinel (Ptr.addr 4096) ↔
        (LState.Unmapped = LState.Mapped ∨
         LState.Unmapped = LState.ClosedMapped)) := by
  constructor
  · decide
  · intro hiff
    rcases hiff.mp (by decide) with h | h <;> exact LState.noConfusion h

/-- C9 as amended: along the happy-path lifecycle, the mapping pointer is
non-sentinel iff the handle has reached state Mapped or any later state
(Mapped, Closed-but-mapped, Unmapped, Unlinked — `unmap` does not reset
the pointer field); the descriptor is non-sentinel only between open and
close (states Opened and Mapped); and `close` sets the descriptor to -1
unconditionally, whatever its `::close` call returned. -/
theorem C9_lifecycle_invariant :
    ∀ (name : String) (size fd a : Nat) (l : LState) (s : SM),
      (l, s) ∈ lifecycle name size fd a →
      ((nonSentinel s.data ↔
         (l = .Mapped ∨ l = .ClosedMapped ∨ l = .Unmapped ∨
          l = .Unlinked)) ∧
       (s.fd ≠ -1 → (l = .Opened ∨ l = .Mapped)) ∧
       (∀ (s' : SM) (r : Except Errno Unit), ((closeStep s' r).1).fd = -1)) := by
  intro name size fd a l s h
  have hclose : ∀ (s' : SM) (r : Except Errno Unit),
      ((closeStep s' r).1).fd = -1 := by
    intro s' r
    by_cases hf : s'.fd ≠ -1 <;> simp [closeStep, hf]
  rw [lifecycle_eq] at h
  simp only [List.mem_cons, List.not_mem_nil, or_false] at h
  rcases h with h | h | h | h | h | h <;>
    (injection h with h1 h2; subst h1; subst h2)
  · exact ⟨by simp [nonSentinel], fun hfd => absurd rfl hfd, hclose⟩
  · exact ⟨by simp [nonSentinel], fun _ => Or.inl rfl, hclose⟩
  · exact ⟨by simp [nonSentinel], fun _ => Or.inr rfl, hclose⟩
  · exact ⟨by simp [nonSentinel], fun hfd => absurd rfl hfd, hclose⟩
  · exact ⟨by simp [nonSentinel], fun hfd => absurd rfl hfd, hclose⟩
  · exact ⟨by simp [nonSentinel], fun hfd => absurd rfl hfd, hclose⟩

/-- Witness for C9's amended invariant at the Closed-but-mapped snapshot
of a concrete lifecycle. -/
theorem C9_lifecycle_invariant_witness :
    nonSentinel (Ptr.addr 4096) :=
  ((C9_lifecycle_invariant "/x" 1 3 4096 .ClosedMapped
    { data := .addr 4096, size := 1, name := "/x", perm := .ReadWrite,
      fd := -1 } (by decide)).1).mpr (Or.inr (Or.inl rfl))

/-- C1 (code evaluation at the failing inputs): when `shm_open` succeeds
and `ftruncate` fails, construction aborts with `FileError`; when
`shm_open` and `ftruncate` succeed and `mmap` fails, it aborts with
`MemoryError` — the typed-error half of the claim holds.  But in both
cases the event trace of the aborted construction contains no
`::close` of any descriptor: the descriptor acquired by the successful
open is NOT released before the error propagates (the C++ constructor
throws before reaching `close()`, and a throwing constructor's destructor
never runs), contradicting the release half of the claim. -/
theorem C1_constructor_error_leaks_descriptor :
    ∀ (Sz : Nat) (name : String) (perm : Permissions) (fd : Nat)
      (e : Errno) (mm : Except Errno Nat) (cl : Except Errno Unit),
      ((constructObj Sz name perm
          { openRes := .ok fd, truncRes := .error e, mmapRes := mm,
            closeRes := cl }).1 =
        .error (.fileError (truncMsg name Sz e)) ∧
       ∀ f : Int, Event.closeEv f ∉
         (constructObj Sz name perm
           { openRes := .ok fd, truncRes := .error e, mmapRes := mm,
             closeRes := cl }).2.1) ∧
      (∀ e2 : Errno,
        (constructObj Sz name perm
          { openRes := .ok fd, truncRes := .ok (), mmapRes := .error e2,
            closeRes := cl }).1 =
          .error (.memoryError (mapMsgObj name Sz e2)) ∧
        ∀ f : Int, Event.closeEv f ∉
          (constructObj Sz name perm
            { openRes := .ok fd, truncRes := .ok (),
              mmapRes := .error e2, closeRes := cl }).2.1) := by
  intro Sz name perm fd e mm cl
  constructor
  · refine ⟨rfl, ?_⟩
    intro f hmem
    simp [constructObj, openStep] at hmem
  · intro e2
    refine ⟨?_, ?_⟩
    · simp [constructObj, openStep, mapStepObj]
    · intro f hmem
      simp only [constructObj, openStep, mapStepObj] at hmem
      split at hmem <;> simp at hmem

/-- Witness for C1's evaluation theorem at concrete failing inputs. -/
theorem C1_constructor_error_leaks_descriptor_witness :
    (constructObj 8 "/x" .ReadWrite
      { openRes := .ok 3, truncRes := .error .EFBIG, mmapRes := .ok 4096,
        closeRes := .ok () }).1 =
      .error (.fileError (truncMsg "/x" 8 .EFBIG)) ∧
    Event.closeEv 3 ∉
      (constructObj 8 "/x" .ReadWrite
        { openRes := .ok 3, truncRes := .error .EFBIG,
          mmapRes := .ok 4096, closeRes := .ok () }).2.1 :=
  ⟨(C1_constructor_error_leaks_descriptor 8 "/x" .ReadWrite 3 .EFBIG
      (.ok 4096) (.ok ())).1.1,
   (C1_constructor_error_leaks_descriptor 8 "/x" .ReadWrite 3 .EFBIG
      (.ok 4096) (.ok ())).1.2 3⟩

end shm
